import Mathlib

/-!
Verification of the configuration core of build_soong (android/config.go):
the environment-variable ledger, the build-mode selector, product-variable
load/persist, multilib-conflict detection, and the mixed-build gate.

Go maps from string keys are embedded as association lists (insertion order
is irrelevant to lookup); Go nil-able pointers (`*bool`, `*string`, `*int`)
become `Option`; functions that can `panic` return `Option`; functions that
can fail with a Go `error` (or call `os.Exit(1)`) return `Except String`.
-/

namespace Soong

/-- Association-list lookup, embedding Go map indexing `m[key]`. -/
def alookup : List (String × String) → String → Option String
  | [], _ => none
  | (k, v) :: rest, key => if k = key then some v else alookup rest key

/-! ## Environment ledger (config.go: env / envDeps / envFrozen, Getenv, EnvDeps) -/

/-- The environment-tracking part of the `config` struct: the process
environment map `env`, the ledger `envDeps` of values observed at first
read, and the freeze flag `envFrozen` (all guarded by envLock in Go;
here single-threaded state passing). -/
structure EnvState where
  env : List (String × String)
  envDeps : List (String × String)
  envFrozen : Bool
deriving DecidableEq

/-- Embedding of `(c *config) Getenv` (config.go lines 741-757): return the
ledger entry if present; otherwise panic (`none`) when frozen, else read the
live environment (empty string when absent), record it, and return it. -/
def getenv (s : EnvState) (key : String) : Option (String × EnvState) :=
  match alookup s.envDeps key with
  | some v => some (v, s)
  | none =>
    if s.envFrozen then
      none
    else
      let v := (alookup s.env key).getD ("")
      some (v, { s with envDeps := s.envDeps ++ [(key, v)] })

/-- Embedding of `(c *config) EnvDeps` (config.go lines 779-784): set the
freeze flag and return the ledger. -/
def envDepsCall (s : EnvState) : List (String × String) × EnvState :=
  (s.envDeps, { s with envFrozen := true })

/-! ## Build modes and the mode selector (config.go lines 108-145, 574-600) -/

/-- Embedding of the `SoongBuildMode` enumeration (config.go lines 108-145). -/
inductive SoongBuildMode
  | AnalysisNoBazel
  | SymlinkForest
  | Bp2build
  | GenerateQueryView
  | ApiBp2build
  | GenerateModuleGraph
  | GenerateDocFile
  | BazelDevMode
  | BazelStagingMode
  | BazelProdMode
deriving DecidableEq

/-- One mode-setting request of NewConfig: whether it is requested
(`arg != ""` for the string-valued markers of setBuildMode, the boolean
itself for setBazelMode), the string printed in the fatal error message
(the argument value resp. the flag name), and the mode it selects. -/
structure ModeRequest where
  active : Bool
  flag : String
  mode : SoongBuildMode
deriving DecidableEq

/-- Embedding of the `setBuildMode` / `setBazelMode` closures in NewConfig
(config.go lines 574-591): an active request errors (os.Exit(1)) when a mode
is already set, otherwise sets its mode; an inactive request is a no-op. -/
def applyRequest (cur : SoongBuildMode) (r : ModeRequest) : Except String SoongBuildMode :=
  if r.active then
    if cur ≠ SoongBuildMode.AnalysisNoBazel then
      Except.error ("buildMode is already set, illegal argument: " ++ r.flag)
    else
      Except.ok r.mode
  else
    Except.ok cur

/-- Sequential application of the mode-setting requests; an error aborts
immediately (os.Exit(1) in Go). -/
def selectFold (cur : SoongBuildMode) : List ModeRequest → Except String SoongBuildMode
  | [] => Except.ok cur
  | r :: rs =>
    match applyRequest cur r with
    | Except.error e => Except.error e
    | Except.ok m => selectFold m rs

/-- The mode-selection-relevant fields of `CmdArgs` (config.go lines 81-105). -/
structure CmdArgs where
  SymlinkForestMarker : String := ""
  Bp2buildMarker : String := ""
  BazelQueryViewDir : String := ""
  BazelApiBp2buildDir : String := ""
  ModuleGraphFile : String := ""
  DocFile : String := ""
  BazelMode : Bool := false
  BazelModeDev : Bool := false
  BazelModeStaging : Bool := false
deriving DecidableEq

/-- The fixed, ordered list of mode-setting requests exactly as NewConfig
issues them (config.go lines 592-600). -/
def modeRequests (args : CmdArgs) : List ModeRequest :=
  [ ⟨args.SymlinkForestMarker ≠ "", args.SymlinkForestMarker, SoongBuildMode.SymlinkForest⟩,
    ⟨args.Bp2buildMarker ≠ "", args.Bp2buildMarker, SoongBuildMode.Bp2build⟩,
    ⟨args.BazelQueryViewDir ≠ "", args.BazelQueryViewDir, SoongBuildMode.GenerateQueryView⟩,
    ⟨args.BazelApiBp2buildDir ≠ "", args.BazelApiBp2buildDir, SoongBuildMode.ApiBp2build⟩,
    ⟨args.ModuleGraphFile ≠ "", args.ModuleGraphFile, SoongBuildMode.GenerateModuleGraph⟩,
    ⟨args.DocFile ≠ "", args.DocFile, SoongBuildMode.GenerateDocFile⟩,
    ⟨args.BazelModeDev, "--bazel-mode-dev", SoongBuildMode.BazelDevMode⟩,
    ⟨args.BazelMode, "--bazel-mode", SoongBuildMode.BazelProdMode⟩,
    ⟨args.BazelModeStaging, "--bazel-mode-staging", SoongBuildMode.BazelStagingMode⟩ ]

/-- Build-mode selection as performed by NewConfig: `config.BuildMode` starts
at the zero value `AnalysisNoBazel` and the requests are applied in order. -/
def selectBuildMode (args : CmdArgs) : Except String SoongBuildMode :=
  selectFold SoongBuildMode.AnalysisNoBazel (modeRequests args)

/-! ## Product variables and the load / persist pipeline
(config.go lines 299-455) -/

/-- The fields of the `productVariables` record (declared in variable.go,
outside this excerpt) that config.go reads or writes in the claims under
study. Go nil-able pointers become `Option`; Go slices become `List`.
Fields absent from a decoded JSON document are `none` / `[]`. -/
structure ProductVariables where
  GcovCoverage : Option Bool := none
  ClangCoverage : Option Bool := none
  Native_coverage : Option Bool := none
  Platform_sdk_final : Option Bool := none
  Platform_sdk_version : Option Int := none
  Platform_sdk_codename : Option String := none
  Platform_sdk_version_or_codename : Option String := none
  DeviceArch : Option String := none
  SanitizeHost : List String := []
  SanitizeDevice : List String := []
  SanitizeDeviceDiag : List String := []
  SanitizeDeviceArch : List String := []
deriving DecidableEq

/-- Embedding of `proptools.Bool` (re-exported as `Bool` in config.go line 44):
dereference a nil-able boolean, false when nil. -/
def pbool (o : Option Bool) : Bool := o.getD false

/-- Embedding of `proptools.String` (re-exported as `String` in config.go
line 47): dereference a nil-able string, empty when nil. -/
def pstring (o : Option String) : String := o.getD ""

/-- Modelled from the spec: `SetDefaultConfig` (declared in variable.go,
outside this excerpt) constructs the default product-variable record that is
persisted when no config file exists. Per the spec, defaults describe a
pre-release platform (the final flag unset, a codename configured, a numeric
sdk version present); the derived fields `Native_coverage` and
`Platform_sdk_version_or_codename` are computed later, during load
(steps 4-5 of the load algorithm), and so are not part of the defaults. -/
def SetDefaultConfig : ProductVariables :=
  { Platform_sdk_final := some false
    Platform_sdk_version := some 30
    Platform_sdk_codename := some ("S") }

/-- Outcome of `os.Open` on the config file followed by JSON decoding:
the file does not exist, opening fails with some other error, or the file
is present and decoding either succeeds or fails. -/
inductive OpenResult
  | notExist
  | openError (msg : String)
  | content (decoded : Except String ProductVariables)

/-- Oracle fixing the outcome of every filesystem operation the load /
persist pipeline performs. Each `Option String` is `some e` when the
corresponding operation fails with underlying error text `e`. -/
structure FsOracle where
  openResult : OpenResult
  createTempError : Option String := none
  writeError : Option String := none
  writeNewlineError : Option String := none
  renameFails : Bool := false
  mkdirError : Option String := none
  writeBzlError : Option String := none
  writeConstantsError : Option String := none
  writeBuildError : Option String := none

/-- Embedding of `saveToConfigFile` (config.go lines 357-384). JSON
marshalling of the record cannot fail and is modelled as the record itself.
Returns the content the target file holds after the call, when the rename
over the target took place. The error returned by `os.Rename` on line 381
is discarded by the source, so a failed rename still returns success
(with the target file left unwritten). -/
def saveToConfigFile (fs : FsOracle) (v : ProductVariables) (filename : String) :
    Except String (Option ProductVariables) :=
  match fs.createTempError with
  | some e => Except.error ("cannot create empty config file " ++ filename ++ ": " ++ e)
  | none =>
    match fs.writeError with
    | some e => Except.error ("default config file: " ++ filename ++ " could not be written: " ++ e)
    | none =>
      match fs.writeNewlineError with
      | some e => Except.error ("default config file: " ++ filename ++ " could not be written: " ++ e)
      | none =>
        if fs.renameFails then Except.ok none else Except.ok (some v)

/-- Embedding of `saveToBazelConfigFile` (config.go lines 386-455), keeping
only its failure structure: directory creation, then the three
WriteFileIfChanged calls. The reflection-driven field lists and the
Starlark text are not consulted by any claim. -/
def saveToBazelConfigFile (fs : FsOracle) (outDir : String) : Except String Unit :=
  match fs.mkdirError with
  | some e =>
    Except.error ("Could not create dir " ++ outDir ++ "/soong_injection/product_config: " ++ e)
  | none =>
    match fs.writeBzlError with
    | some e => Except.error ("Could not write .bzl config file " ++ e)
    | none =>
      match fs.writeConstantsError with
      | some e => Except.error ("Could not write .bzl config file " ++ e)
      | none =>
        match fs.writeBuildError with
        | some e => Except.error ("Could not write BUILD config file " ++ e)
        | none => Except.ok ()

/-- Embedding of the coverage validation and derivation step of
`loadFromConfigFile` (config.go lines 330-336): both coverage modes set is
an error; otherwise the derived `Native_coverage` is the logical OR. -/
def checkCoverage (v : ProductVariables) : Except String ProductVariables :=
  if pbool v.GcovCoverage && pbool v.ClangCoverage then
    Except.error ("GcovCoverage and ClangCoverage cannot both be set")
  else
    Except.ok { v with Native_coverage := some (pbool v.GcovCoverage || pbool v.ClangCoverage) }

/-- Embedding of the sdk-version-or-codename resolution step of
`loadFromConfigFile` (config.go lines 340-350). -/
def resolveSdkVersion (v : ProductVariables) : Except String ProductVariables :=
  if pbool v.Platform_sdk_final then
    match v.Platform_sdk_version with
    | some n =>
      Except.ok { v with Platform_sdk_version_or_codename := some (toString n) }
    | none => Except.error ("Platform_sdk_version cannot be pointed by a NULL pointer")
  else
    Except.ok { v with Platform_sdk_version_or_codename := some (pstring v.Platform_sdk_codename) }

/-- Embedding of `loadFromConfigFile` (config.go lines 305-353). `filename`
is the config-file path and `dir` its containing directory
(`filepath.Dir(filename)` in the source). Returns the final record together
with the content this call wrote to the config file, if any. Open / decode
first (writing defaults when the file is absent), then the coverage check,
then sdk resolution, then the Bazel-side export. -/
def loadFromConfigFile (fs : FsOracle) (filename dir : String) :
    Except String (ProductVariables × Option ProductVariables) :=
  match
    (match fs.openResult with
     | OpenResult.notExist =>
       match saveToConfigFile fs SetDefaultConfig filename with
       | Except.error e => Except.error e
       | Except.ok written => Except.ok (SetDefaultConfig, written)
     | OpenResult.openError e =>
       Except.error ("config file: could not open " ++ filename ++ ": " ++ e)
     | OpenResult.content (Except.error e) =>
       Except.error ("config file: " ++ filename ++ " did not parse correctly: " ++ e)
     | OpenResult.content (Except.ok v) => Except.ok (v, none)) with
  | Except.error e => Except.error e
  | Except.ok (v, written) =>
    match checkCoverage v with
    | Except.error e => Except.error e
    | Except.ok v₁ =>
      match resolveSdkVersion v₁ with
      | Except.error e => Except.error e
      | Except.ok v₂ =>
        match saveToBazelConfigFile fs dir with
        | Except.error e => Except.error e
        | Except.ok _ => Except.ok (v₂, written)

/-! ## The build-dir / source-dir soundness check of NewConfig
(config.go lines 499-519) -/

/-- Embedding of Go `strings.HasPrefix(s, pre)` on the underlying bytes,
here the character list of the string. -/
def strHasPre (s pre : String) : Bool := pre.data.isPrefixOf s.data

/-- Modelled from the spec: the spec words the soundness check as "the build
output directory is not an ancestor of the source root". On clean absolute
paths (as produced by filepath.Abs), `a` is a (strict) ancestor directory of
`b` exactly when `b` continues `a` with a path separator. -/
def isDirAncestor (a b : String) : Bool := strHasPre b (a ++ "/")

/-- Embedding of the check-then-load phase of `NewConfig` (config.go lines
499-519): `absBuildDir` and `absSrcDir` are the already-absolutized
SoongOutDir and current directory; the string-prefix soundness check runs
before `loadConfig` performs any file access. -/
def newConfigCheckAndLoad (absBuildDir absSrcDir : String) (fs : FsOracle)
    (filename dir : String) :
    Except String (ProductVariables × Option ProductVariables) :=
  if strHasPre absSrcDir absBuildDir then
    Except.error ("Build dir must not contain source directory")
  else
    loadFromConfigFile fs filename dir

/-! ## Device targets and multilib-conflict detection
(config.go lines 553-559, 1280-1282) -/

/-- The part of the `ArchType` record (declared in arch.go, outside this
excerpt) that the conflict loop consults: its identity (used as the key of
the conflict map) and its `Multilib` class ("lib32" / "lib64" / ""). -/
structure ArchType where
  name : String
  Multilib : String
deriving DecidableEq

/-- The `Arch` field of a target, carrying its `ArchType`. -/
structure Arch where
  ArchType : ArchType
deriving DecidableEq

/-- A compilation target, reduced to the field the conflict loop reads. -/
structure Target where
  Arch : Arch
deriving DecidableEq

/-- Key insertion with Go map semantics (`m[k] = true`): a key already
present is left alone, a new key is added. Embeds both the `multilib` seen
set and the `multilibConflicts` map of NewConfig. -/
def insertKey {α : Type} [DecidableEq α] (l : List α) (a : α) : List α :=
  if a ∈ l then l else l ++ [a]

/-- The conflict-detection loop of NewConfig (config.go lines 553-559),
with the `multilib` seen set and the conflict-map keys as accumulators:
a target whose Multilib class was already seen records its ArchType in the
conflict map; every target marks its Multilib class as seen. -/
def multilibLoop : List Target → List String → List ArchType → List ArchType
  | [], _, conflicts => conflicts
  | t :: ts, seen, conflicts =>
    multilibLoop ts (insertKey seen t.Arch.ArchType.Multilib)
      (if t.Arch.ArchType.Multilib ∈ seen then insertKey conflicts t.Arch.ArchType else conflicts)

/-- The multilib-conflict map produced while building the Android target
list, starting from the empty seen set and the empty conflict map made in
NewConfig (config.go lines 481, 553-559). -/
def decodeMultilibConflicts (targets : List Target) : List ArchType :=
  multilibLoop targets [] []

/-- The `multilib` seen set held by the loop after processing a list of
targets, used to reason about the loop compositionally. -/
def seenAfter (ts : List Target) (seen : List String) : List String :=
  ts.foldl (fun s t => insertKey s t.Arch.ArchType.Multilib) seen

/-- Embedding of `(c *config) HasMultilibConflict` (config.go lines
1280-1282): Go map lookup with default false. -/
def HasMultilibConflict (conflicts : List ArchType) (arch : ArchType) : Bool :=
  decide (arch ∈ conflicts)

/-! ## The mixed-build gate (config.go lines 645-670) -/

/-- The slice of the `config` struct that `IsMixedBuildsEnabled` reads:
the product variables, the environment ledger, and the selected mode. -/
structure MixedConfig where
  productVariables : ProductVariables
  envState : EnvState
  BuildMode : SoongBuildMode
deriving DecidableEq

/-- Embedding of `(c *config) IsEnvTrue` (config.go lines 767-770) on a
MixedConfig: classify the Getenv result against the truthy encodings;
`none` when Getenv panics. -/
def IsEnvTrue (c : MixedConfig) (key : String) : Option (Bool × MixedConfig) :=
  match getenv c.envState key with
  | none => none
  | some (v, s') =>
    some (v = "1" ∨ v = "y" ∨ v = "yes" ∨ v = "on" ∨ v = "true",
      { c with envState := s' })

/-- The memoized computation inside `IsMixedBuildsEnabled` (config.go lines
646-666). The `Once` wrapper caches this value per configuration; since
every input it reads is immutable after construction (product variables) or
itself memoized (the env ledger), the cached value is the value computed
here, and the cache is elided from the embedding. -/
def globalMixedBuildsSupport (c : MixedConfig) : Option (Bool × MixedConfig) :=
  if c.productVariables.DeviceArch = some ("riscv64") then some (false, c)
  else
    match IsEnvTrue c "GLOBAL_THINLTO" with
    | none => none
    | some (thinlto, c') =>
      if thinlto then some (false, c')
      else if c'.productVariables.SanitizeHost.length > 0 then some (false, c')
      else if c'.productVariables.SanitizeDevice.length > 0 then some (false, c')
      else if c'.productVariables.SanitizeDeviceDiag.length > 0 then some (false, c')
      else if c'.productVariables.SanitizeDeviceArch.length > 0 then some (false, c')
      else some (true, c')

/-- The `bazelModeEnabled` disjunction of config.go line 668. -/
def bazelModeEnabled : SoongBuildMode → Bool
  | SoongBuildMode.BazelProdMode => true
  | SoongBuildMode.BazelDevMode => true
  | SoongBuildMode.BazelStagingMode => true
  | _ => false

/-- Embedding of `(c *config) IsMixedBuildsEnabled` (config.go lines
645-670): the memoized global-support value conjoined with the mode check. -/
def IsMixedBuildsEnabled (c : MixedConfig) : Option (Bool × MixedConfig) :=
  match globalMixedBuildsSupport c with
  | none => none
  | some (g, c') => some (g && bazelModeEnabled c.BuildMode, c')

/-! ## Helper lemmas -/

theorem alookup_append_of_none (l : List (String × String)) (k v : String)
    (h : alookup l k = none) : alookup (l ++ [(k, v)]) k = some v := by
  induction l with
  | nil => simp [alookup]
  | cons p rest ih =>
    obtain ⟨a, b⟩ := p
    by_cases hak : a = k
    · simp [alookup, hak] at h
    · simp only [alookup, List.cons_append, if_neg hak] at h ⊢
      exact ih h

/-! ### Environment ledger: claims C1 and C2 -/

/-- C1: two calls to Getenv with the same name on the same config return the
same string; the first call records the value observed in the environment
map (empty string when absent), and a later call returns that recorded value
even if the environment map has changed in between. -/
theorem getenv_single_read (s : EnvState) (name v : String) (s' : EnvState)
    (env₂ : List (String × String))
    (h : getenv s name = some (v, s')) :
    (alookup s.envDeps name = none → v = (alookup s.env name).getD "") ∧
    getenv { s' with env := env₂ } name = some (v, { s' with env := env₂ }) := by
  cases hl : alookup s.envDeps name with
  | some w =>
    have hcalc : getenv s name = some (w, s) := by simp [getenv, hl]
    rw [hcalc] at h
    simp only [Option.some.injEq, Prod.mk.injEq] at h
    obtain ⟨rfl, rfl⟩ := h
    refine ⟨fun hc => ?_, ?_⟩
    · exact Option.noConfusion hc
    · simp [getenv, hl]
  | none =>
    by_cases hf : s.envFrozen = true
    · have hcalc : getenv s name = none := by simp [getenv, hl, hf]
      rw [hcalc] at h
      cases h
    · have hcalc : getenv s name = some ((alookup s.env name).getD "",
          { s with envDeps := s.envDeps ++ [(name, (alookup s.env name).getD "")] }) := by
        simp [getenv, hl, hf]
      rw [hcalc] at h
      simp only [Option.some.injEq, Prod.mk.injEq] at h
      obtain ⟨hv, hs⟩ := h
      refine ⟨fun _ => hv.symm, ?_⟩
      subst hs
      simp [getenv, alookup_append_of_none _ _ _ hl, hv]

/-- C1 witness: a concrete first read of FOO=bar records bar, and a second
read after the environment has changed to FOO=baz still returns bar. -/
theorem getenv_single_read_witness :
    (alookup (([] : List (String × String))) ("FOO") = none →
       ("bar") = (alookup [("FOO", "bar")] ("FOO")).getD "") ∧
    getenv ⟨[("FOO", "baz")], [("FOO", "bar")], false⟩ ("FOO") =
      some (("bar"), ⟨[("FOO", "baz")], [("FOO", "bar")], false⟩) :=
  getenv_single_read ⟨[("FOO", "bar")], [], false⟩ ("FOO") ("bar")
    ⟨[("FOO", "bar")], [("FOO", "bar")], false⟩ [("FOO", "baz")] (by decide)

/-- C2: EnvDeps returns the ledger accumulated so far and freezes it; a
second call returns the same mapping and the same state; the freeze is
irreversible across Getenv calls; after EnvDeps, Getenv panics on any name
not in the ledger and still returns the cached value for a ledgered name. -/
theorem envDeps_freeze (s : EnvState) :
    (envDepsCall s).1 = s.envDeps ∧
    (envDepsCall (envDepsCall s).2).1 = (envDepsCall s).1 ∧
    (envDepsCall s).2.envFrozen = true ∧
    (envDepsCall (envDepsCall s).2).2 = (envDepsCall s).2 ∧
    (∀ name w s', getenv (envDepsCall s).2 name = some (w, s') → s'.envFrozen = true) ∧
    (∀ name, alookup (envDepsCall s).2.envDeps name = none →
       getenv (envDepsCall s).2 name = none) ∧
    (∀ name w, alookup (envDepsCall s).2.envDeps name = some w →
       getenv (envDepsCall s).2 name = some (w, (envDepsCall s).2)) := by
  refine ⟨rfl, rfl, rfl, rfl, ?_, ?_, ?_⟩
  · intro name w s' h
    cases hl : alookup (envDepsCall s).2.envDeps name with
    | some u =>
      have hcalc : getenv (envDepsCall s).2 name = some (u, (envDepsCall s).2) := by
        simp [getenv, hl]
      rw [hcalc] at h
      simp only [Option.some.injEq, Prod.mk.injEq] at h
      obtain ⟨-, h2⟩ := h
      subst h2
      rfl
    | none =>
      have hcalc : getenv (envDepsCall s).2 name = none := by
        simp only [envDepsCall] at hl
        simp [getenv, envDepsCall, hl]
      rw [hcalc] at h
      cases h
  · intro name hl
    simp only [envDepsCall] at hl
    simp [getenv, envDepsCall, hl]
  · intro name w hl
    simp [getenv, hl]

/-- C2 witness: concrete freeze of a ledger holding FOO=bar; the second call
returns the same map, a new name panics, FOO still reads bar. -/
theorem envDeps_freeze_witness :
    (envDepsCall ⟨[("FOO", "bar"), ("NEW", "x")], [("FOO", "bar")], false⟩).1 =
      [("FOO", "bar")] ∧
    (envDepsCall (envDepsCall ⟨[("FOO", "bar"), ("NEW", "x")], [("FOO", "bar")], false⟩).2).1 =
      (envDepsCall ⟨[("FOO", "bar"), ("NEW", "x")], [("FOO", "bar")], false⟩).1 ∧
    (envDepsCall ⟨[("FOO", "bar"), ("NEW", "x")], [("FOO", "bar")], false⟩).2.envFrozen = true ∧
    getenv (envDepsCall ⟨[("FOO", "bar"), ("NEW", "x")], [("FOO", "bar")], false⟩).2 ("NEW") =
      none ∧
    getenv (envDepsCall ⟨[("FOO", "bar"), ("NEW", "x")], [("FOO", "bar")], false⟩).2 ("FOO") =
      some (("bar"), (envDepsCall ⟨[("FOO", "bar"), ("NEW", "x")], [("FOO", "bar")], false⟩).2) := by
  have h := envDeps_freeze ⟨[("FOO", "bar"), ("NEW", "x")], [("FOO", "bar")], false⟩
  exact ⟨h.1, h.2.1, h.2.2.1, h.2.2.2.2.2.1 ("NEW") (by decide),
    h.2.2.2.2.2.2 ("FOO") ("bar") (by decide)⟩

/-! ### Build-mode selection: claim C3 -/

theorem selectFold_of_set (rs : List ModeRequest) (m : SoongBuildMode)
    (hm : m ≠ SoongBuildMode.AnalysisNoBazel) :
    (rs.filter (fun r => r.active) = [] → selectFold m rs = Except.ok m) ∧
    (∀ r₁ rest, rs.filter (fun r => r.active) = r₁ :: rest →
       selectFold m rs =
         Except.error ("buildMode is already set, illegal argument: " ++ r₁.flag)) := by
  induction rs with
  | nil =>
    refine ⟨fun _ => rfl, fun r₁ rest hr => ?_⟩
    simp at hr
  | cons r rs ih =>
    by_cases ha : r.active
    · refine ⟨fun hnil => ?_, fun r₁ rest hr => ?_⟩
      · simp [List.filter_cons, ha] at hnil
      · have hr₁ : r₁ = r := by
          simp [List.filter_cons, ha] at hr
          exact hr.1.symm
        subst hr₁
        simp [selectFold, applyRequest, ha, hm]
    · have hfil : (r :: rs).filter (fun r => r.active) = rs.filter (fun r => r.active) := by
        simp [List.filter_cons, ha]
      have hstep : selectFold m (r :: rs) = selectFold m rs := by
        simp [selectFold, applyRequest, ha]
      rw [hfil, hstep]
      exact ih

theorem selectFold_from_default (rs : List ModeRequest)
    (hmodes : ∀ r ∈ rs, r.mode ≠ SoongBuildMode.AnalysisNoBazel) :
    (rs.filter (fun r => r.active) = [] →
       selectFold SoongBuildMode.AnalysisNoBazel rs = Except.ok SoongBuildMode.AnalysisNoBazel) ∧
    (∀ r, rs.filter (fun r => r.active) = [r] →
       selectFold SoongBuildMode.AnalysisNoBazel rs = Except.ok r.mode) ∧
    (∀ r₁ r₂ rest, rs.filter (fun r => r.active) = r₁ :: r₂ :: rest →
       selectFold SoongBuildMode.AnalysisNoBazel rs =
         Except.error ("buildMode is already set, illegal argument: " ++ r₂.flag)) := by
  induction rs with
  | nil =>
    refine ⟨fun _ => rfl, fun r hr => ?_, fun r₁ r₂ rest hr => ?_⟩ <;> simp at hr
  | cons r rs ih =>
    have hmode : r.mode ≠ SoongBuildMode.AnalysisNoBazel := hmodes r (by simp)
    have hrest : ∀ q ∈ rs, q.mode ≠ SoongBuildMode.AnalysisNoBazel :=
      fun q hq => hmodes q (by simp [hq])
    by_cases ha : r.active
    · have hfil : (r :: rs).filter (fun r => r.active) = r :: rs.filter (fun r => r.active) := by
        simp [List.filter_cons, ha]
      have hstep : selectFold SoongBuildMode.AnalysisNoBazel (r :: rs) = selectFold r.mode rs := by
        simp [selectFold, applyRequest, ha]
      refine ⟨fun hnil => ?_, fun q hq => ?_, fun r₁ r₂ rest hr => ?_⟩
      · rw [hfil] at hnil
        exact absurd hnil (by simp)
      · rw [hfil] at hq
        simp only [List.cons.injEq] at hq
        obtain ⟨rfl, hq2⟩ := hq
        rw [hstep]
        exact (selectFold_of_set rs r.mode hmode).1 hq2
      · rw [hfil] at hr
        simp only [List.cons.injEq] at hr
        obtain ⟨rfl, hr2⟩ := hr
        rw [hstep]
        exact (selectFold_of_set rs r.mode hmode).2 r₂ rest hr2
    · have hfil : (r :: rs).filter (fun r => r.active) = rs.filter (fun r => r.active) := by
        simp [List.filter_cons, ha]
      have hstep : selectFold SoongBuildMode.AnalysisNoBazel (r :: rs) =
          selectFold SoongBuildMode.AnalysisNoBazel rs := by
        simp [selectFold, applyRequest, ha]
      rw [hfil, hstep]
      exact ih hrest

/-- C3: the mode starts as AnalysisNoBazel and the requests are walked in
the fixed order of modeRequests; if no request is active the mode stays
AnalysisNoBazel; a single active request yields exactly its mode; with two
or more active requests the first sets the mode and the second aborts with
a fatal error naming its flag. -/
theorem buildMode_selection (args : CmdArgs) :
    ((modeRequests args).filter (fun r => r.active) = [] →
       selectBuildMode args = Except.ok SoongBuildMode.AnalysisNoBazel) ∧
    (∀ r, (modeRequests args).filter (fun r => r.active) = [r] →
       selectBuildMode args = Except.ok r.mode) ∧
    (∀ r₁ r₂ rest, (modeRequests args).filter (fun r => r.active) = r₁ :: r₂ :: rest →
       selectBuildMode args =
         Except.error ("buildMode is already set, illegal argument: " ++ r₂.flag)) := by
  have hmodes : ∀ r ∈ modeRequests args, r.mode ≠ SoongBuildMode.AnalysisNoBazel := by
    intro r hr
    simp only [modeRequests, List.mem_cons, List.not_mem_nil, or_false] at hr
    rcases hr with rfl | rfl | rfl | rfl | rfl | rfl | rfl | rfl | rfl <;> simp
  exact selectFold_from_default (modeRequests args) hmodes

/-- C3 witness: with both a bp2build marker and a query-view directory
supplied, selection aborts naming the query-view argument; with no flags the
mode stays AnalysisNoBazel. -/
theorem buildMode_selection_witness :
    selectBuildMode { Bp2buildMarker := "m", BazelQueryViewDir := "q" } =
      Except.error ("buildMode is already set, illegal argument: " ++ "q") ∧
    selectBuildMode {} = Except.ok SoongBuildMode.AnalysisNoBazel := by
  constructor
  · exact (buildMode_selection { Bp2buildMarker := "m", BazelQueryViewDir := "q" }).2.2
      ⟨true, "m", SoongBuildMode.Bp2build⟩ ⟨true, "q", SoongBuildMode.GenerateQueryView⟩ []
      (by decide)
  · exact (buildMode_selection {}).1 (by decide)

/-! ### Product-variable load and persist: claims C4, C5, C7, C8 -/

theorem checkCoverage_ok_native (v v₁ : ProductVariables)
    (h : checkCoverage v = Except.ok v₁) :
    v₁.Native_coverage = some (pbool v.GcovCoverage || pbool v.ClangCoverage) := by
  unfold checkCoverage at h
  split at h
  · cases h
  · cases h
    rfl

theorem resolveSdkVersion_ok_native (v₁ v₂ : ProductVariables)
    (h : resolveSdkVersion v₁ = Except.ok v₂) :
    v₂.Native_coverage = v₁.Native_coverage := by
  unfold resolveSdkVersion at h
  split at h
  · split at h
    · cases h
      rfl
    · cases h
  · cases h
    rfl

/-- C4: loading a decoded record with both GcovCoverage and ClangCoverage
set to true fails with an error; with at most one set the coverage check
passes and derives Native_coverage as the logical OR, a value every
successfully loaded store carries. -/
theorem coverage_mutual_exclusion (fs : FsOracle) (filename dir : String)
    (v : ProductVariables) (h : fs.openResult = OpenResult.content (Except.ok v)) :
    (pbool v.GcovCoverage = true → pbool v.ClangCoverage = true →
       loadFromConfigFile fs filename dir =
         Except.error ("GcovCoverage and ClangCoverage cannot both be set")) ∧
    ((pbool v.GcovCoverage && pbool v.ClangCoverage) = false →
       checkCoverage v =
         Except.ok { v with
           Native_coverage := some (pbool v.GcovCoverage || pbool v.ClangCoverage) }) ∧
    (∀ v' w, loadFromConfigFile fs filename dir = Except.ok (v', w) →
       v'.Native_coverage = some (pbool v.GcovCoverage || pbool v.ClangCoverage)) := by
  refine ⟨fun hg hc => ?_, fun hcov => ?_, fun v' w hok => ?_⟩
  · simp [loadFromConfigFile, h, checkCoverage, hg, hc]
  · simp [checkCoverage, hcov]
  · cases hcc : checkCoverage v with
    | error e =>
      simp [loadFromConfigFile, h, hcc] at hok
    | ok v₁ =>
      cases hsdk : resolveSdkVersion v₁ with
      | error e =>
        simp [loadFromConfigFile, h, hcc, hsdk] at hok
      | ok v₂ =>
        cases hbz : saveToBazelConfigFile fs dir with
        | error e =>
          simp [loadFromConfigFile, h, hcc, hsdk, hbz] at hok
        | ok u =>
          simp [loadFromConfigFile, h, hcc, hsdk, hbz] at hok
          obtain ⟨rfl, rfl⟩ := hok
          rw [resolveSdkVersion_ok_native v₁ v₂ hsdk, checkCoverage_ok_native v v₁ hcc]

/-- C4 witness: a concrete config file carrying both coverage modes is
rejected with the mutual-exclusion error. -/
theorem coverage_mutual_exclusion_witness :
    loadFromConfigFile
        { openResult := OpenResult.content (Except.ok
            { GcovCoverage := some true, ClangCoverage := some true }) }
        ("soong.variables") ("out/soong") =
      Except.error ("GcovCoverage and ClangCoverage cannot both be set") :=
  (coverage_mutual_exclusion _ _ _
    { GcovCoverage := some true, ClangCoverage := some true } rfl).1 rfl rfl

/-- C5 counterexample: loading with no config file present writes the
pre-derivation defaults, but the store the load produces carries the two
derived fields, so it is not field-for-field equal to the decoded file. -/
theorem roundtrip_counterexample :
    loadFromConfigFile { openResult := OpenResult.notExist } ("soong.variables") ("out/soong") =
      Except.ok ({ SetDefaultConfig with
          Native_coverage := some false,
          Platform_sdk_version_or_codename := some ("S") }, some SetDefaultConfig) ∧
    ({ SetDefaultConfig with
        Native_coverage := some false,
        Platform_sdk_version_or_codename := some ("S") } : ProductVariables) ≠
      SetDefaultConfig :=
  ⟨rfl, by decide⟩

/-- C5 amended: when the config file is absent and the filesystem
cooperates, the file written holds exactly the SetDefaultConfig defaults,
and the store produced is those defaults with only the two load-derived
fields (Native_coverage and Platform_sdk_version_or_codename) recomputed;
all other fields round-trip unchanged. -/
theorem roundtrip_amended (fs : FsOracle) (filename dir : String)
    (h₁ : fs.openResult = OpenResult.notExist)
    (h₂ : fs.createTempError = none) (h₃ : fs.writeError = none)
    (h₄ : fs.writeNewlineError = none) (h₅ : fs.renameFails = false)
    (h₆ : fs.mkdirError = none) (h₇ : fs.writeBzlError = none)
    (h₈ : fs.writeConstantsError = none) (h₉ : fs.writeBuildError = none) :
    loadFromConfigFile fs filename dir =
      Except.ok ({ SetDefaultConfig with
          Native_coverage :=
            some (pbool SetDefaultConfig.GcovCoverage || pbool SetDefaultConfig.ClangCoverage),
          Platform_sdk_version_or_codename :=
            some (pstring SetDefaultConfig.Platform_sdk_codename) },
        some SetDefaultConfig) := by
  simp [loadFromConfigFile, saveToConfigFile, saveToBazelConfigFile, checkCoverage,
    resolveSdkVersion, SetDefaultConfig, pbool, pstring, h₁, h₂, h₃, h₄, h₅, h₆, h₇, h₈, h₉]

/-- C5 amended witness: the amended round trip evaluated on a concrete
cooperating filesystem. -/
theorem roundtrip_amended_witness :
    loadFromConfigFile { openResult := OpenResult.notExist } ("sv") ("od") =
      Except.ok ({ SetDefaultConfig with
          Native_coverage :=
            some (pbool SetDefaultConfig.GcovCoverage || pbool SetDefaultConfig.ClangCoverage),
          Platform_sdk_version_or_codename :=
            some (pstring SetDefaultConfig.Platform_sdk_codename) },
        some SetDefaultConfig) :=
  roundtrip_amended { openResult := OpenResult.notExist } ("sv") ("od")
    rfl rfl rfl rfl rfl rfl rfl rfl rfl

/-- C7 counterexample: with build dir /a/b and source root /a/bc the build
dir is not an ancestor directory of the source root, yet NewConfig fails
the soundness check, because the source uses a plain string-prefix test. -/
theorem buildDir_check_counterexample :
    isDirAncestor ("/a/b") ("/a/bc") = false ∧
    newConfigCheckAndLoad ("/a/b") ("/a/bc") { openResult := OpenResult.notExist }
        ("soong.variables") ("out/soong") =
      Except.error ("Build dir must not contain source directory") := by
  constructor
  · decide
  · rfl

/-- C7 amended: NewConfig fails with the build-dir error exactly when the
absolute build dir is a string prefix of the absolute source root — a test
that covers every true ancestor case but also fires on sibling paths
sharing a name prefix — and when it fires the result is the same error for
every filesystem oracle, i.e. before any file access. -/
theorem buildDir_check (absBuildDir absSrcDir filename dir : String) (fs : FsOracle) :
    (strHasPre absSrcDir absBuildDir = true →
       ∀ fs' : FsOracle, newConfigCheckAndLoad absBuildDir absSrcDir fs' filename dir =
         Except.error ("Build dir must not contain source directory")) ∧
    (strHasPre absSrcDir absBuildDir = false →
       newConfigCheckAndLoad absBuildDir absSrcDir fs filename dir =
         loadFromConfigFile fs filename dir) ∧
    (isDirAncestor absBuildDir absSrcDir = true → strHasPre absSrcDir absBuildDir = true) := by
  refine ⟨fun hp fs' => ?_, fun hp => ?_, fun ha => ?_⟩
  · simp [newConfigCheckAndLoad, hp]
  · simp [newConfigCheckAndLoad, hp]
  · unfold isDirAncestor strHasPre at ha
    unfold strHasPre
    rw [List.isPrefixOf_iff_prefix] at ha ⊢
    rw [String.data_append] at ha
    exact (List.prefix_append absBuildDir.data ("/").data).trans ha

/-- C7 amended witness: a true ancestor pair is rejected identically for
two different filesystem oracles. -/
theorem buildDir_check_witness :
    newConfigCheckAndLoad ("/a/b") ("/a/b/src") { openResult := OpenResult.notExist }
        ("sv") ("od") =
      Except.error ("Build dir must not contain source directory") ∧
    newConfigCheckAndLoad ("/a/b") ("/a/b/src")
        { openResult := OpenResult.openError ("disk error") } ("sv") ("od") =
      Except.error ("Build dir must not contain source directory") :=
  ⟨(buildDir_check ("/a/b") ("/a/b/src") ("sv") ("od")
      { openResult := OpenResult.notExist }).1 (by decide) _,
   (buildDir_check ("/a/b") ("/a/b/src") ("sv") ("od")
      { openResult := OpenResult.notExist }).1 (by decide) _⟩

/-- C8 counterexample: a failed rename of the temp file over the config
file is silently ignored — the load returns success and reports nothing,
with the target file left unwritten. -/
theorem rename_failure_ignored :
    loadFromConfigFile { openResult := OpenResult.notExist, renameFails := true }
        ("soong.variables") ("out/soong") =
      Except.ok ({ SetDefaultConfig with
          Native_coverage := some false,
          Platform_sdk_version_or_codename := some ("S") }, none) :=
  rfl

/-- C8 amended: an unreadable config file, a parse failure, a failed temp
file creation or write, a failed directory creation, and a failed Bazel
export are each surfaced as an error wrapping the underlying message; only
the failed rename of saveToConfigFile is silently ignored (the load still
succeeds). -/
theorem fs_errors_surfaced (fs : FsOracle) (filename dir e : String) :
    (fs.openResult = OpenResult.openError e →
       loadFromConfigFile fs filename dir =
         Except.error ("config file: could not open " ++ filename ++ ": " ++ e)) ∧
    (fs.openResult = OpenResult.content (Except.error e) →
       loadFromConfigFile fs filename dir =
         Except.error ("config file: " ++ filename ++ " did not parse correctly: " ++ e)) ∧
    (fs.openResult = OpenResult.notExist → fs.createTempError = some e →
       loadFromConfigFile fs filename dir =
         Except.error ("cannot create empty config file " ++ filename ++ ": " ++ e)) ∧
    (fs.openResult = OpenResult.notExist → fs.createTempError = none →
       fs.writeError = some e →
       loadFromConfigFile fs filename dir =
         Except.error ("default config file: " ++ filename ++ " could not be written: " ++ e)) ∧
    (fs.openResult = OpenResult.notExist → fs.createTempError = none →
       fs.writeError = none → fs.writeNewlineError = none → fs.mkdirError = some e →
       loadFromConfigFile fs filename dir =
         Except.error ("Could not create dir " ++ dir ++ "/soong_injection/product_config: " ++ e)) ∧
    (fs.openResult = OpenResult.notExist → fs.createTempError = none →
       fs.writeError = none → fs.writeNewlineError = none → fs.mkdirError = none →
       fs.writeBzlError = some e →
       loadFromConfigFile fs filename dir =
         Except.error ("Could not write .bzl config file " ++ e)) ∧
    (fs.openResult = OpenResult.notExist → fs.createTempError = none →
       fs.writeError = none → fs.writeNewlineError = none → fs.renameFails = true →
       fs.mkdirError = none → fs.writeBzlError = none → fs.writeConstantsError = none →
       fs.writeBuildError = none →
       loadFromConfigFile fs filename dir =
         Except.ok ({ SetDefaultConfig with
             Native_coverage := some false,
             Platform_sdk_version_or_codename := some ("S") }, none)) := by
  refine ⟨fun h1 => ?_, fun h1 => ?_, fun h1 h2 => ?_, fun h1 h2 h3 => ?_,
    fun h1 h2 h3 h4 h5 => ?_, fun h1 h2 h3 h4 h5 h6 => ?_,
    fun h1 h2 h3 h4 h5 h6 h7 h8 h9 => ?_⟩
  · simp [loadFromConfigFile, h1]
  · simp [loadFromConfigFile, h1]
  · simp [loadFromConfigFile, saveToConfigFile, h1, h2]
  · simp [loadFromConfigFile, saveToConfigFile, h1, h2, h3]
  · cases hrn : fs.renameFails <;>
      simp [loadFromConfigFile, saveToConfigFile, saveToBazelConfigFile, checkCoverage,
        resolveSdkVersion, SetDefaultConfig, pbool, h1, h2, h3, h4, h5, hrn]
  · cases hrn : fs.renameFails <;>
      simp [loadFromConfigFile, saveToConfigFile, saveToBazelConfigFile, checkCoverage,
        resolveSdkVersion, SetDefaultConfig, pbool, h1, h2, h3, h4, h5, h6, hrn]
  · simp [loadFromConfigFile, saveToConfigFile, saveToBazelConfigFile, checkCoverage,
      resolveSdkVersion, SetDefaultConfig, pbool, pstring, h1, h2, h3, h4, h5, h6, h7, h8, h9]

/-- C8 amended witness: an unreadable config file is surfaced with the
wrapped open error on a concrete oracle. -/
theorem fs_errors_surfaced_witness :
    loadFromConfigFile { openResult := OpenResult.openError ("permission denied") }
        ("soong.variables") ("out/soong") =
      Except.error ("config file: could not open " ++ "soong.variables" ++ ": " ++
        "permission denied") :=
  (fs_errors_surfaced { openResult := OpenResult.openError ("permission denied") }
    ("soong.variables") ("out/soong") ("permission denied")).1 rfl

/-! ### Multilib-conflict detection: claim C6 -/

theorem insertKey_mem {α : Type} [DecidableEq α] (l : List α) (a b : α) :
    a ∈ insertKey l b ↔ a ∈ l ∨ a = b := by
  unfold insertKey
  by_cases hb : b ∈ l
  · rw [if_pos hb]
    constructor
    · exact Or.inl
    · rintro (h | rfl)
      · exact h
      · exact hb
  · rw [if_neg hb]
    simp [List.mem_append]

theorem multilibLoop_mono (ts : List Target) (seen : List String)
    (conflicts : List ArchType) (a : ArchType) (h : a ∈ conflicts) :
    a ∈ multilibLoop ts seen conflicts := by
  induction ts generalizing seen conflicts with
  | nil => exact h
  | cons t ts ih =>
    unfold multilibLoop
    apply ih
    by_cases hm : t.Arch.ArchType.Multilib ∈ seen
    · rw [if_pos hm]
      exact (insertKey_mem _ _ _).2 (Or.inl h)
    · rw [if_neg hm]
      exact h

theorem seenAfter_cons (t : Target) (ts : List Target) (seen : List String) :
    seenAfter (t :: ts) seen = seenAfter ts (insertKey seen t.Arch.ArchType.Multilib) := rfl

theorem multilibLoop_append (ts₁ ts₂ : List Target) (seen : List String)
    (conflicts : List ArchType) :
    multilibLoop (ts₁ ++ ts₂) seen conflicts =
      multilibLoop ts₂ (seenAfter ts₁ seen) (multilibLoop ts₁ seen conflicts) := by
  induction ts₁ generalizing seen conflicts with
  | nil => rfl
  | cons t ts₁ ih =>
    rw [List.cons_append]
    show multilibLoop (ts₁ ++ ts₂) (insertKey seen t.Arch.ArchType.Multilib)
        (if t.Arch.ArchType.Multilib ∈ seen then insertKey conflicts t.Arch.ArchType
         else conflicts) = _
    rw [ih, seenAfter_cons]
    rfl

theorem mem_seenAfter (ts : List Target) (seen : List String) (ml : String) :
    ml ∈ seenAfter ts seen ↔
      ml ∈ seen ∨ ∃ t, t ∈ ts ∧ t.Arch.ArchType.Multilib = ml := by
  induction ts generalizing seen with
  | nil => simp [seenAfter]
  | cons t ts ih =>
    rw [seenAfter_cons, ih, insertKey_mem]
    constructor
    · rintro ((h | h) | ⟨u, hu, hml⟩)
      · exact Or.inl h
      · exact Or.inr ⟨t, by simp, h.symm⟩
      · exact Or.inr ⟨u, by simp [hu], hml⟩
    · rintro (h | ⟨u, hu, hml⟩)
      · exact Or.inl (Or.inl h)
      · rcases List.mem_cons.1 hu with rfl | hu'
        · exact Or.inl (Or.inr hml.symm)
        · exact Or.inr ⟨u, hu', hml⟩

/-- C6: a target whose multilib class was already claimed by an earlier
target has its architecture type recorded in the conflict map, queryable
via HasMultilibConflict, and construction never fails; two lib64-classed
targets yield exactly one conflict entry, while a lib64 paired with a
lib32 yields none. -/
theorem multilib_conflict_detection (ts₁ ts₂ : List Target) (t t₁ t₂ : Target) :
    ((∃ t', t' ∈ ts₁ ∧ t'.Arch.ArchType.Multilib = t.Arch.ArchType.Multilib) →
       HasMultilibConflict (decodeMultilibConflicts (ts₁ ++ t :: ts₂)) t.Arch.ArchType = true) ∧
    (t₁.Arch.ArchType.Multilib = "lib64" → t₂.Arch.ArchType.Multilib = "lib64" →
       decodeMultilibConflicts [t₁, t₂] = [t₂.Arch.ArchType]) ∧
    (t₁.Arch.ArchType.Multilib = "lib64" → t₂.Arch.ArchType.Multilib = "lib32" →
       decodeMultilibConflicts [t₁, t₂] = []) := by
  refine ⟨fun hex => ?_, fun h1 h2 => ?_, fun h1 h2 => ?_⟩
  · obtain ⟨t', ht', hml⟩ := hex
    unfold decodeMultilibConflicts
    rw [multilibLoop_append]
    have hseen : t.Arch.ArchType.Multilib ∈ seenAfter ts₁ [] :=
      (mem_seenAfter ts₁ [] _).2 (Or.inr ⟨t', ht', hml⟩)
    have hstep : multilibLoop (t :: ts₂) (seenAfter ts₁ []) (multilibLoop ts₁ [] []) =
        multilibLoop ts₂ (insertKey (seenAfter ts₁ []) t.Arch.ArchType.Multilib)
          (insertKey (multilibLoop ts₁ [] []) t.Arch.ArchType) := by
      show multilibLoop ts₂ _
          (if t.Arch.ArchType.Multilib ∈ seenAfter ts₁ [] then
            insertKey (multilibLoop ts₁ [] []) t.Arch.ArchType
           else multilibLoop ts₁ [] []) = _
      rw [if_pos hseen]
    rw [hstep]
    unfold HasMultilibConflict
    simp only [decide_eq_true_eq]
    exact multilibLoop_mono _ _ _ _ ((insertKey_mem _ _ _).2 (Or.inr rfl))
  · simp [decodeMultilibConflicts, multilibLoop, insertKey, h1, h2]
  · simp [decodeMultilibConflicts, multilibLoop, insertKey, h1, h2]

/-- C6 witness: two concrete lib64 targets produce exactly the conflict
entry for the second architecture, and a lib64/lib32 pair produces none. -/
theorem multilib_conflict_detection_witness :
    HasMultilibConflict
        (decodeMultilibConflicts [⟨⟨⟨("arm64"), ("lib64")⟩⟩⟩, ⟨⟨⟨("x86_64"), ("lib64")⟩⟩⟩])
        ⟨("x86_64"), ("lib64")⟩ = true ∧
    decodeMultilibConflicts [⟨⟨⟨("arm64"), ("lib64")⟩⟩⟩, ⟨⟨⟨("arm"), ("lib32")⟩⟩⟩] = [] :=
  ⟨(multilib_conflict_detection [⟨⟨⟨("arm64"), ("lib64")⟩⟩⟩] [] ⟨⟨⟨("x86_64"), ("lib64")⟩⟩⟩
      ⟨⟨⟨("arm64"), ("lib64")⟩⟩⟩ ⟨⟨⟨("arm"), ("lib32")⟩⟩⟩).1
      ⟨⟨⟨⟨("arm64"), ("lib64")⟩⟩⟩, by simp, rfl⟩,
    (multilib_conflict_detection [] [] ⟨⟨⟨("x86_64"), ("lib64")⟩⟩⟩
      ⟨⟨⟨("arm64"), ("lib64")⟩⟩⟩ ⟨⟨⟨("arm"), ("lib32")⟩⟩⟩).2.2 rfl rfl⟩

/-! ### The mixed-build gate: claim C10 -/

theorem globalSupport_conditions (c : MixedConfig) (g : Bool) (c'' : MixedConfig)
    (h : globalMixedBuildsSupport c = some (g, c'')) :
    (c.productVariables.DeviceArch = some ("riscv64") → g = false) ∧
    (∀ v s', getenv c.envState ("GLOBAL_THINLTO") = some (v, s') →
       (v = "1" ∨ v = "y" ∨ v = "yes" ∨ v = "on" ∨ v = "true") → g = false) ∧
    (c.productVariables.SanitizeHost ≠ [] → g = false) ∧
    (c.productVariables.SanitizeDevice ≠ [] → g = false) ∧
    (c.productVariables.SanitizeDeviceDiag ≠ [] → g = false) ∧
    (c.productVariables.SanitizeDeviceArch ≠ [] → g = false) := by
  by_cases hda : c.productVariables.DeviceArch = some ("riscv64")
  · have hval : globalMixedBuildsSupport c = some (false, c) := by
      simp [globalMixedBuildsSupport, hda]
    rw [hval] at h
    simp only [Option.some.injEq, Prod.mk.injEq] at h
    obtain ⟨hgf, -⟩ := h
    exact ⟨fun _ => hgf.symm, fun _ _ _ _ => hgf.symm, fun _ => hgf.symm,
      fun _ => hgf.symm, fun _ => hgf.symm, fun _ => hgf.symm⟩
  · cases hg : getenv c.envState ("GLOBAL_THINLTO") with
    | none =>
      have hval : globalMixedBuildsSupport c = none := by
        simp [globalMixedBuildsSupport, IsEnvTrue, hda, hg]
      rw [hval] at h
      cases h
    | some p =>
      obtain ⟨v₀, s₀⟩ := p
      by_cases htr : v₀ = "1" ∨ v₀ = "y" ∨ v₀ = "yes" ∨ v₀ = "on" ∨ v₀ = "true"
      · have hval : globalMixedBuildsSupport c =
            some (false, { c with envState := s₀ }) := by
          simp [globalMixedBuildsSupport, IsEnvTrue, hda, hg, htr]
        rw [hval] at h
        simp only [Option.some.injEq, Prod.mk.injEq] at h
        obtain ⟨hgf, -⟩ := h
        exact ⟨fun _ => hgf.symm, fun _ _ _ _ => hgf.symm, fun _ => hgf.symm,
          fun _ => hgf.symm, fun _ => hgf.symm, fun _ => hgf.symm⟩
      · by_cases e1 : c.productVariables.SanitizeHost = []
        case neg =>
          have hval : globalMixedBuildsSupport c =
              some (false, { c with envState := s₀ }) := by
            simp [globalMixedBuildsSupport, IsEnvTrue, hda, hg, htr, List.length_pos, e1]
          rw [hval] at h
          simp only [Option.some.injEq, Prod.mk.injEq] at h
          obtain ⟨hgf, -⟩ := h
          exact ⟨fun _ => hgf.symm, fun _ _ _ _ => hgf.symm, fun _ => hgf.symm,
            fun _ => hgf.symm, fun _ => hgf.symm, fun _ => hgf.symm⟩
        case pos =>
        by_cases e2 : c.productVariables.SanitizeDevice = []
        case neg =>
          have hval : globalMixedBuildsSupport c =
              some (false, { c with envState := s₀ }) := by
            simp [globalMixedBuildsSupport, IsEnvTrue, hda, hg, htr, e1,
              List.length_pos, e2]
          rw [hval] at h
          simp only [Option.some.injEq, Prod.mk.injEq] at h
          obtain ⟨hgf, -⟩ := h
          exact ⟨fun _ => hgf.symm, fun _ _ _ _ => hgf.symm, fun _ => hgf.symm,
            fun _ => hgf.symm, fun _ => hgf.symm, fun _ => hgf.symm⟩
        case pos =>
        by_cases e3 : c.productVariables.SanitizeDeviceDiag = []
        case neg =>
          have hval : globalMixedBuildsSupport c =
              some (false, { c with envState := s₀ }) := by
            simp [globalMixedBuildsSupport, IsEnvTrue, hda, hg, htr, e1, e2,
              List.length_pos, e3]
          rw [hval] at h
          simp only [Option.some.injEq, Prod.mk.injEq] at h
          obtain ⟨hgf, -⟩ := h
          exact ⟨fun _ => hgf.symm, fun _ _ _ _ => hgf.symm, fun _ => hgf.symm,
            fun _ => hgf.symm, fun _ => hgf.symm, fun _ => hgf.symm⟩
        case pos =>
        by_cases e4 : c.productVariables.SanitizeDeviceArch = []
        case neg =>
          have hval : globalMixedBuildsSupport c =
              some (false, { c with envState := s₀ }) := by
            simp [globalMixedBuildsSupport, IsEnvTrue, hda, hg, htr, e1, e2, e3,
              List.length_pos, e4]
          rw [hval] at h
          simp only [Option.some.injEq, Prod.mk.injEq] at h
          obtain ⟨hgf, -⟩ := h
          exact ⟨fun _ => hgf.symm, fun _ _ _ _ => hgf.symm, fun _ => hgf.symm,
            fun _ => hgf.symm, fun _ => hgf.symm, fun _ => hgf.symm⟩
        case pos =>
        have hval : globalMixedBuildsSupport c =
            some (true, { c with envState := s₀ }) := by
          simp [globalMixedBuildsSupport, IsEnvTrue, hda, hg, htr, e1, e2, e3, e4]
        rw [hval] at h
        simp only [Option.some.injEq, Prod.mk.injEq] at h
        obtain ⟨hgt, -⟩ := h
        refine ⟨fun hcon => absurd hcon hda, fun v s' hget htru => ?_,
          fun hcon => absurd e1 hcon, fun hcon => absurd e2 hcon,
          fun hcon => absurd e3 hcon, fun hcon => absurd e4 hcon⟩
        simp only [Option.some.injEq, Prod.mk.injEq] at hget
        obtain ⟨hv, -⟩ := hget
        rw [← hv] at htru
        exact absurd htru htr

/-- C10: IsMixedBuildsEnabled returns true only in one of the three Bazel
modes (so it is false in AnalysisNoBazel), and it returns false whenever
DeviceArch is riscv64, the observed GLOBAL_THINLTO value is truthy, or any
of the four sanitizer product variables is a non-empty list. -/
theorem isMixedBuildsEnabled_gating (c : MixedConfig) (b : Bool) (c' : MixedConfig)
    (h : IsMixedBuildsEnabled c = some (b, c')) :
    (b = true → c.BuildMode = SoongBuildMode.BazelDevMode ∨
       c.BuildMode = SoongBuildMode.BazelStagingMode ∨
       c.BuildMode = SoongBuildMode.BazelProdMode) ∧
    (c.BuildMode = SoongBuildMode.AnalysisNoBazel → b = false) ∧
    (c.productVariables.DeviceArch = some ("riscv64") → b = false) ∧
    (∀ v s', getenv c.envState ("GLOBAL_THINLTO") = some (v, s') →
       (v = "1" ∨ v = "y" ∨ v = "yes" ∨ v = "on" ∨ v = "true") → b = false) ∧
    (c.productVariables.SanitizeHost ≠ [] → b = false) ∧
    (c.productVariables.SanitizeDevice ≠ [] → b = false) ∧
    (c.productVariables.SanitizeDeviceDiag ≠ [] → b = false) ∧
    (c.productVariables.SanitizeDeviceArch ≠ [] → b = false) := by
  unfold IsMixedBuildsEnabled at h
  cases hgs : globalMixedBuildsSupport c with
  | none =>
    rw [hgs] at h
    cases h
  | some p =>
    obtain ⟨g, c''⟩ := p
    rw [hgs] at h
    simp only [Option.some.injEq, Prod.mk.injEq] at h
    obtain ⟨rfl, -⟩ := h
    have hcond := globalSupport_conditions c g c'' hgs
    refine ⟨fun hbt => ?_, fun hmode => ?_, fun h3 => ?_, fun v s' hget htru => ?_,
      fun h5 => ?_, fun h6 => ?_, fun h7 => ?_, fun h8 => ?_⟩
    · cases hmm : c.BuildMode <;> rw [hmm] at hbt <;>
        simp [bazelModeEnabled] at hbt <;> decide
    · rw [hmode]
      simp [bazelModeEnabled]
    · rw [hcond.1 h3]
      rfl
    · rw [hcond.2.1 v s' hget htru]
      rfl
    · rw [hcond.2.2.1 h5]
      rfl
    · rw [hcond.2.2.2.1 h6]
      rfl
    · rw [hcond.2.2.2.2.1 h7]
      rfl
    · rw [hcond.2.2.2.2.2 h8]
      rfl

/-- C10 witness: on a clean configuration in BazelDevMode the gate returns
true, and applying the theorem recovers that BazelDevMode is one of the
three Bazel modes. -/
theorem isMixedBuildsEnabled_gating_witness :
    SoongBuildMode.BazelDevMode = SoongBuildMode.BazelDevMode ∨
    SoongBuildMode.BazelDevMode = SoongBuildMode.BazelStagingMode ∨
    SoongBuildMode.BazelDevMode = SoongBuildMode.BazelProdMode :=
  (isMixedBuildsEnabled_gating ⟨{}, ⟨[], [], false⟩, SoongBuildMode.BazelDevMode⟩ true
    ⟨{}, ⟨[], [("GLOBAL_THINLTO", "")], false⟩, SoongBuildMode.BazelDevMode⟩ (by decide)).1 rfl

end Soong
